import Mathlib

/-!
Verification development for the rmdlconv studio-model transcoder.

Each definition below is a shallow embedding of a function (or of the
relevant fragment of a function) from the repository sources, chiefly
`src/studio/model/rmdl_191.cpp` and the v16/v14 converters.  Machine
integers are modelled as `Nat`/`Int`; byte buffers as `List Nat`.
-/

set_option maxRecDepth 8192

namespace Rmdlconv

/-! ### Mesh flag / vertex stride functions (rmdl_191.cpp lines 27-48) -/

/-- `#define VERTEX_HAS_UV2_FLAG 0x200000000ULL` -/
def VERTEX_HAS_UV2_FLAG : Nat := 0x200000000

/-- `ConvertMeshFlags_191(flags) = flags & ~VERTEX_HAS_UV2_FLAG` on `uint64_t`;
`~0x200000000ULL = 0xFFFFFFFDFFFFFFFF`. -/
def ConvertMeshFlags_191 (flags : Nat) : Nat :=
  flags &&& 0xFFFFFFFDFFFFFFFF

/-- `CalculateVertexSize_191`: sum of fixed byte costs gated by flag bits. -/
def CalculateVertexSize_191 (flags : Nat) : Nat :=
  (if flags &&& 0x1 ≠ 0 then 12 else 0) +
  (if flags &&& 0x2 ≠ 0 then 8 else 0) +
  (if flags &&& 0x10 ≠ 0 then 4 else 0) +
  (if flags &&& 0x200 ≠ 0 then 4 else 0) +
  (if flags &&& 0x1000 ≠ 0 then 4 else 0) +
  (if flags &&& 0x2000 ≠ 0 then 8 else 0) +
  (if flags &&& 0x4000 ≠ 0 then 4 else 0) +
  (if flags &&& 0x2000000 ≠ 0 then 8 else 0)

lemma and_mask_pull (f m : Nat) (hm : (0xFFFFFFFDFFFFFFFF : Nat) &&& m = m) :
    (f &&& 0xFFFFFFFDFFFFFFFF) &&& m = f &&& m := by
  rw [Nat.land_assoc, hm]

/-- The UV2 bit does not occur among the stride-contributing bits, so
masking it away does not change the computed vertex size. -/
lemma calcSize_convertFlags (f : Nat) :
    CalculateVertexSize_191 (ConvertMeshFlags_191 f) = CalculateVertexSize_191 f := by
  unfold CalculateVertexSize_191 ConvertMeshFlags_191
  rw [and_mask_pull f 0x1 (by decide), and_mask_pull f 0x2 (by decide),
      and_mask_pull f 0x10 (by decide), and_mask_pull f 0x200 (by decide),
      and_mask_pull f 0x1000 (by decide), and_mask_pull f 0x2000 (by decide),
      and_mask_pull f 0x4000 (by decide), and_mask_pull f 0x2000000 (by decide)]

/-- Masking clears the UV2 bit. -/
lemma convertFlags_clears_uv2 (f : Nat) :
    ConvertMeshFlags_191 f &&& VERTEX_HAS_UV2_FLAG = 0 := by
  unfold ConvertMeshFlags_191 VERTEX_HAS_UV2_FLAG
  rw [Nat.land_assoc]
  have h : (0xFFFFFFFDFFFFFFFF : Nat) &&& 0x200000000 = 0 := by decide
  rw [h]
  simp

/-! ### VG mesh vertex copy (ConvertVGData_191, rmdl_191.cpp lines 381-413) -/

/-- The fields of `vg::rev4::MeshHeader_t` used by the vertex-copy loop. -/
structure MeshHeader191 where
  flags : Nat
  vertCacheSize : Nat
  vertCount : Nat
  vertBufferSize : Nat
  deriving DecidableEq, Repr

/-- Bytes of vertex data written for one mesh by the vertex-copy loop of
`ConvertVGData_191`: if the source cache size differs from the computed
v10 vertex size, each of the `vertCount` vertices is copied at the v10
size; otherwise the whole `vertBufferSize` is copied.  Nothing is copied
when the mesh has no vertices. -/
def vertexBytesWritten_191 (m : MeshHeader191) : Nat :=
  if m.vertCount = 0 then 0
  else
    let v10Flags := ConvertMeshFlags_191 m.flags
    let v10VertSize := CalculateVertexSize_191 v10Flags
    if m.vertCacheSize ≠ v10VertSize then m.vertCount * v10VertSize
    else m.vertBufferSize

/-- The mesh used to refute claim C1 as stated: UV2 bit set, but the stored
cache size already equals the flag-computed stride. -/
def meshC1 : MeshHeader191 :=
  { flags := 0x200000001, vertCacheSize := 12, vertCount := 1, vertBufferSize := 5 }

/-- C10: For every 64-bit mesh flag word f,
`CalculateVertexSize_191 (ConvertMeshFlags_191 f) = CalculateVertexSize_191 f`:
the UV2 flag bit 0x200000000 removed by `ConvertMeshFlags_191` is not among
the bits that contribute to the computed vertex stride, so stripping it
never changes the computed stride. -/
theorem C10_stride_invariant_under_uv2_strip (f : Nat) :
    CalculateVertexSize_191 (ConvertMeshFlags_191 f) = CalculateVertexSize_191 f :=
  calcSize_convertFlags f

/-- C1 counterexample: for the concrete mesh `meshC1` (UV2 bit set, stored
stride 12 equal to the flag-computed stride), the converted stride is 12,
not `12 - 8`, and the bytes written are 5 (`vertBufferSize`), not
`newStride × vertexCount = 12`.  So the claim "the converted stride is
exactly 8 bytes smaller than the source stride and the bytes written equal
newStride × vertexCount" is false as stated. -/
theorem C1_counterexample :
    meshC1.flags &&& VERTEX_HAS_UV2_FLAG ≠ 0 ∧
    ¬ (CalculateVertexSize_191 (ConvertMeshFlags_191 meshC1.flags) + 8 = meshC1.vertCacheSize ∧
       vertexBytesWritten_191 meshC1 =
         CalculateVertexSize_191 (ConvertMeshFlags_191 meshC1.flags) * meshC1.vertCount) := by
  decide

/-- C1 (amended): for every mesh whose flag word has the UV2 bit set,
conversion strips that bit; the converted stride equals
`CalculateVertexSize_191` of the source flags (the UV2 bit contributes
nothing to the computed stride); and **when the stored source stride is
exactly 8 bytes larger than the flag-computed stride** (i.e. it includes
the UV channel's fixed 8-byte cost), the converted stride is exactly 8
bytes smaller than the source stride and the bytes of vertex data written
equal `newStride × vertexCount`. -/
theorem C1_uv2_strip_amended (m : MeshHeader191)
    (huv2 : m.flags &&& VERTEX_HAS_UV2_FLAG ≠ 0)
    (hsz : m.vertCacheSize = CalculateVertexSize_191 m.flags + 8) :
    ConvertMeshFlags_191 m.flags &&& VERTEX_HAS_UV2_FLAG = 0 ∧
    CalculateVertexSize_191 (ConvertMeshFlags_191 m.flags) + 8 = m.vertCacheSize ∧
    vertexBytesWritten_191 m =
      CalculateVertexSize_191 (ConvertMeshFlags_191 m.flags) * m.vertCount := by
  have hconv := calcSize_convertFlags m.flags
  refine ⟨convertFlags_clears_uv2 m.flags, by omega, ?_⟩
  unfold vertexBytesWritten_191
  by_cases hz : m.vertCount = 0
  · simp [hz]
  · have hne : m.vertCacheSize ≠ CalculateVertexSize_191 (ConvertMeshFlags_191 m.flags) := by
      omega
    rw [if_neg hz, if_pos hne]
    ring

/-- Witness for the amended C1 theorem: a concrete mesh with UV2 set and a
stored stride that includes the 8-byte UV channel. -/
theorem C1_uv2_strip_amended_witness :
    let m : MeshHeader191 :=
      { flags := 0x200000001, vertCacheSize := 20, vertCount := 3, vertBufferSize := 60 }
    ConvertMeshFlags_191 m.flags &&& VERTEX_HAS_UV2_FLAG = 0 ∧
    CalculateVertexSize_191 (ConvertMeshFlags_191 m.flags) + 8 = m.vertCacheSize ∧
    vertexBytesWritten_191 m =
      CalculateVertexSize_191 (ConvertMeshFlags_191 m.flags) * m.vertCount :=
  C1_uv2_strip_amended _ (by decide) (by decide)

/-! ### Sequence / animation conversion (ConvertSequences_191, rmdl_191.cpp
lines 1206-1638, and ConvertAnims_140, rmdl_140.cpp lines 345-399) -/

/-- Modelled from the spec: the `STUDIO_ALLZEROS` animation flag constant used
by the placeholder branch of `ConvertSequences_191`; its numeric value comes
from a studio header that is not part of the provided sources (0x20 in the
Source SDK).  Only its identity matters for the claims. -/
def STUDIO_ALLZEROS : Nat := 0x20

/-- Fields of `r5::v191::mstudioanimdesc_t` read by `ConvertSequences_191`. -/
structure OldAnimDesc191 where
  sznameindex : Int
  name : String
  fps : Rat
  flags : Nat
  numframes : Int

/-- Fields of the emitted `r5::v8::mstudioanimdesc_t` relevant here, plus the
zero-filled per-bone flag bytes written right after it (`animindex` data). -/
structure AnimDescV8 where
  name : String
  fps : Rat
  flags : Nat
  numframes : Int
  nummovements : Int
  boneFlagBytes : List Nat

/-- `flagSize = ((4 * numBones + 7) / 8 + 1) & 0xFFFFFFFE` -/
def animBoneFlagsSize (numBones : Nat) : Nat :=
  ((4 * numBones + 7) / 8 + 1) &&& 0xFFFFFFFE

/-- Fields of `r5::v191::mstudioseqdesc_t` used by the animation loop. -/
structure OldSeq191 where
  label : String
  groupsize0 : Int
  groupsize1 : Int
  animindexindex : Int
  animIndices : List Nat
  descAt : Nat → OldAnimDesc191

/-- `int numAnims = groupsize[0] * groupsize[1]; if (numAnims <= 0) numAnims = 1;` -/
def numAnims_191 (s : OldSeq191) : Int :=
  let numAnims := s.groupsize0 * s.groupsize1
  if numAnims ≤ 0 then 1 else numAnims

/-- The v19.1 animation-descriptor lookup for blend cell `i`: the `uint16_t`
index array exists only when `animindexindex > 0`, and a descriptor is
located only when the stored index is `> 0`. -/
def lookupOldAnim_191 (s : OldSeq191) (i : Nat) : Option OldAnimDesc191 :=
  if s.animindexindex > 0 then
    let idx := s.animIndices.getD i 0
    if idx > 0 then some (s.descAt idx) else none
  else none

/-- Emission of one `r5::v8::mstudioanimdesc_t` per blend cell: copy the
metadata when a source descriptor was located, otherwise write the minimal
placeholder (seq label, 30 fps, `STUDIO_ALLZEROS`, one frame).  In both
branches a zero-filled bone-flags array is written as the animation data. -/
def emitAnimCell (numBones : Nat) (seqLabel : String) :
    Option OldAnimDesc191 → AnimDescV8
  | some od =>
      { name := if od.sznameindex > 0 then od.name else seqLabel
        fps := od.fps
        flags := od.flags
        numframes := od.numframes
        nummovements := 0
        boneFlagBytes :=
          if numBones > 0 then List.replicate (animBoneFlagsSize numBones) 0 else [] }
  | none =>
      { name := seqLabel
        fps := 30
        flags := STUDIO_ALLZEROS
        numframes := 1
        nummovements := 0
        boneFlagBytes :=
          if numBones > 0 then List.replicate (animBoneFlagsSize numBones) 0 else [] }

/-- The descriptors emitted for one sequence by `ConvertSequences_191`: one
per blend cell, `numAnims_191` cells in total. -/
def convertSeqAnims_191 (numBones : Nat) (s : OldSeq191) : List AnimDescV8 :=
  (List.range (numAnims_191 s).toNat).map
    (fun i => emitAnimCell numBones s.label (lookupOldAnim_191 s i))

/-- Number of `int` entries of the animation-index array written for one
sequence (`g_model.pData += numAnims * sizeof(int)`). -/
def animIndexArrayLen_191 (s : OldSeq191) : Nat :=
  (numAnims_191 s).toNat

/-- Number of animation descriptors emitted per sequence by the v14.0
converter `ConvertAnims_140`:
`const int numAnims = groupsize[0] + groupsize[1];` guarded by
`if (numAnims)`, then `CopyAnimDesc_140` writes one descriptor per loop
iteration `i < numAnims`. -/
def animDescCount_140 (gs0 gs1 : Int) : Nat :=
  let numAnims := gs0 + gs1
  if numAnims ≠ 0 then numAnims.toNat else 0

/-- C2 counterexample: the claim says every converted sequence with blend
grid `groupsize=[2,1]` gets exactly 2 animation descriptors, but the cited
v14.0 converter (`ConvertAnims_140`) emits `groupsize[0] + groupsize[1] = 3`
descriptors for that grid. -/
theorem C2_counterexample : animDescCount_140 2 1 = 3 ∧ (3 : Nat) ≠ 2 := by
  decide

/-- C2 (amended): the v19.1 converter emits `max(groupsize[0]*groupsize[1], 1)`
animation descriptors per sequence and an animation-index array of the same
length; whenever the blend-cell count is positive this equals the number of
blend-grid cells, so a `groupsize=[2,1]` sequence gets exactly 2 descriptors
and 2 index entries.  The v14.0 converter (`ConvertAnims_140`) instead emits
`groupsize[0] + groupsize[1]` descriptors. -/
theorem C2_blend_grid_amended (numBones : Nat) (s : OldSeq191)
    (h : 0 < s.groupsize0 * s.groupsize1) :
    (convertSeqAnims_191 numBones s).length = (s.groupsize0 * s.groupsize1).toNat ∧
    animIndexArrayLen_191 s = (s.groupsize0 * s.groupsize1).toNat := by
  unfold convertSeqAnims_191 animIndexArrayLen_191 numAnims_191
  rw [if_neg (by omega)]
  simp

/-- Witness: a concrete sequence with `groupsize=[2,1]` gets exactly 2
descriptors and a 2-entry animation-index array. -/
theorem C2_blend_grid_amended_witness :
    let s : OldSeq191 :=
      { label := "ref", groupsize0 := 2, groupsize1 := 1, animindexindex := 0,
        animIndices := [],
        descAt := fun _ =>
          { sznameindex := 0, name := "", fps := 30, flags := 0, numframes := 1 } }
    (convertSeqAnims_191 1 s).length = 2 ∧ animIndexArrayLen_191 s = 2 := by
  exact C2_blend_grid_amended 1 _ (by decide)

/-- C6: for every blend-grid cell for which no source animation descriptor
can be located, the converter emits the minimal placeholder descriptor —
sequence label as name, 30 fps, `STUDIO_ALLZEROS` flag, one frame, zero
movements, all-zero bone motion flag bytes — and the sequence conversion
still produces a descriptor for every cell (it is a total function: the
file conversion proceeds instead of failing). -/
theorem C6_placeholder_animation (numBones : Nat) (s : OldSeq191) (i : Nat)
    (h : lookupOldAnim_191 s i = none) :
    (emitAnimCell numBones s.label (lookupOldAnim_191 s i)).name = s.label ∧
    (emitAnimCell numBones s.label (lookupOldAnim_191 s i)).fps = 30 ∧
    (emitAnimCell numBones s.label (lookupOldAnim_191 s i)).flags = STUDIO_ALLZEROS ∧
    (emitAnimCell numBones s.label (lookupOldAnim_191 s i)).numframes = 1 ∧
    (emitAnimCell numBones s.label (lookupOldAnim_191 s i)).nummovements = 0 ∧
    (∀ b ∈ (emitAnimCell numBones s.label (lookupOldAnim_191 s i)).boneFlagBytes, b = 0) ∧
    (convertSeqAnims_191 numBones s).length = (numAnims_191 s).toNat := by
  rw [h]
  refine ⟨rfl, rfl, rfl, rfl, rfl, ?_, by simp [convertSeqAnims_191]⟩
  intro b hb
  unfold emitAnimCell at hb
  by_cases hnb : numBones > 0
  · rw [if_pos hnb] at hb
    exact List.eq_of_mem_replicate hb
  · rw [if_neg hnb] at hb
    exact absurd hb (List.not_mem_nil b)

/-- Witness for C6: a sequence whose index array is absent
(`animindexindex = 0`) yields the placeholder for cell 0. -/
theorem C6_placeholder_animation_witness :
    let s : OldSeq191 :=
      { label := "idle", groupsize0 := 1, groupsize1 := 1, animindexindex := 0,
        animIndices := [],
        descAt := fun _ =>
          { sznameindex := 0, name := "", fps := 30, flags := 0, numframes := 1 } }
    (emitAnimCell 2 s.label (lookupOldAnim_191 s 0)).name = s.label ∧
    (emitAnimCell 2 s.label (lookupOldAnim_191 s 0)).fps = 30 ∧
    (emitAnimCell 2 s.label (lookupOldAnim_191 s 0)).flags = STUDIO_ALLZEROS ∧
    (emitAnimCell 2 s.label (lookupOldAnim_191 s 0)).numframes = 1 ∧
    (emitAnimCell 2 s.label (lookupOldAnim_191 s 0)).nummovements = 0 ∧
    (∀ b ∈ (emitAnimCell 2 s.label (lookupOldAnim_191 s 0)).boneFlagBytes, b = 0) ∧
    (convertSeqAnims_191 2 s).length = (numAnims_191 s).toNat := by
  exact C6_placeholder_animation 2 _ 0 rfl

/-! ### Collision (BVH) conversion (ConvertCollisionData_V191, rmdl_191.cpp
lines 1826-1962) -/

/-- Section offsets of `r5::v191::mstudiocollheader_t` used for buffer-length
inference. -/
structure CollHeader191 where
  vertsOfs : Int
  leafDataOfs : Int
  nodesOfs : Int
  deriving DecidableEq, Repr, Inhabited

/-- First conversion loop: for header `i`, the copied vertex-buffer length is
`leafDataOfs - vertsOfs` (both of header `i` itself), and the copied
leaf-buffer length is `next.vertsOfs - leafDataOfs` for a non-last header,
or `headers[0].nodesOfs - leafDataOfs` for the last one. -/
def collVertLeafSizes (hdrs : List CollHeader191) : List (Int × Int) :=
  (List.range hdrs.length).map fun i =>
    let oldHeader := hdrs.getD i default
    let vertSize := oldHeader.leafDataOfs - oldHeader.vertsOfs
    let leafSize :=
      if i ≠ hdrs.length - 1 then (hdrs.getD (i + 1) default).vertsOfs - oldHeader.leafDataOfs
      else (hdrs.getD 0 default).nodesOfs - oldHeader.leafDataOfs
    (vertSize, leafSize)

/-- Second conversion loop: node-buffer length is the gap to the next
header's `nodesOfs`; for the last header it is the remaining file space
past the collision data (`fileSize - collisionOffset - nodesOfs`, size_t
arithmetic modelled as truncated `Nat` subtraction) clamped to 1 MiB. -/
def collNodeSizes (hdrs : List CollHeader191) (fileSize collisionOffset : Nat) : List Int :=
  (List.range hdrs.length).map fun i =>
    let oldHeader := hdrs.getD i default
    if i ≠ hdrs.length - 1 then (hdrs.getD (i + 1) default).nodesOfs - oldHeader.nodesOfs
    else
      let maxNodeEnd : Nat := fileSize - collisionOffset - oldHeader.nodesOfs.toNat
      min (maxNodeEnd : Int) (1024 * 1024)

/-- Two concrete collision headers with monotonically increasing section
offsets, used to refute claim C3 as stated. -/
def collHdrsC3 : List CollHeader191 :=
  [{ vertsOfs := 100, leafDataOfs := 120, nodesOfs := 300 },
   { vertsOfs := 150, leafDataOfs := 180, nodesOfs := 340 }]

lemma getD_map_range {α : Type} [Inhabited α] (f : Nat → α) (n i : Nat) (hi : i < n) :
    ((List.range n).map f).getD i default = f i := by
  rw [List.getD_eq_getElem _ _ (by simpa using hi)]
  simp

/-- C3 counterexample: for the non-last header of `collHdrsC3` the code
infers a vertex length of 20 (`leafDataOfs - vertsOfs` of the same header)
and a leaf length of 30 (`next.vertsOfs - leafDataOfs`), while the claim
says these should equal the gaps to the *next header's corresponding*
offsets, 50 and 60 respectively. -/
theorem C3_counterexample :
    ((collVertLeafSizes collHdrsC3).getD 0 default).1 = 20 ∧
    ((collVertLeafSizes collHdrsC3).getD 0 default).2 = 30 ∧
    (20 : Int) ≠ (collHdrsC3.getD 1 default).vertsOfs - (collHdrsC3.getD 0 default).vertsOfs ∧
    (30 : Int) ≠ (collHdrsC3.getD 1 default).leafDataOfs - (collHdrsC3.getD 0 default).leafDataOfs := by
  decide

/-- C3 (amended): for every collision header, the inferred **vertex** length
is the gap from the header's own vertex offset to its own leaf-data offset;
the inferred **leaf** length is the gap from its leaf-data offset to the
next header's *vertex* offset (for the last header, to the first header's
node offset); only the inferred **node** length equals the gap to the next
header's corresponding (node) offset, and for the last header the node
length is the remaining space up to the end of the file, clamped to a
1 MiB sanity ceiling. -/
theorem C3_collision_lengths_amended (hdrs : List CollHeader191)
    (fileSize collisionOffset : Nat) (i : Nat) (hi : i < hdrs.length) :
    ((collVertLeafSizes hdrs).getD i default).1 =
      (hdrs.getD i default).leafDataOfs - (hdrs.getD i default).vertsOfs ∧
    (i + 1 < hdrs.length →
      ((collVertLeafSizes hdrs).getD i default).2 =
        (hdrs.getD (i + 1) default).vertsOfs - (hdrs.getD i default).leafDataOfs ∧
      (collNodeSizes hdrs fileSize collisionOffset).getD i default =
        (hdrs.getD (i + 1) default).nodesOfs - (hdrs.getD i default).nodesOfs) ∧
    (i = hdrs.length - 1 →
      ((collVertLeafSizes hdrs).getD i default).2 =
        (hdrs.getD 0 default).nodesOfs - (hdrs.getD i default).leafDataOfs ∧
      (collNodeSizes hdrs fileSize collisionOffset).getD i default =
        min ((fileSize - collisionOffset - (hdrs.getD i default).nodesOfs.toNat : Nat) : Int)
          (1024 * 1024)) := by
  unfold collVertLeafSizes collNodeSizes
  rw [getD_map_range _ _ _ hi, getD_map_range _ _ _ hi]
  refine ⟨rfl, ?_, ?_⟩
  · intro h2
    have hne : i ≠ hdrs.length - 1 := by omega
    simp only [if_pos hne]
    exact ⟨trivial, trivial⟩
  · intro h3
    have hne : ¬ i ≠ hdrs.length - 1 := by omega
    simp only [if_neg hne]
    exact ⟨trivial, trivial⟩

/-- A concrete one-header collision model for the C3 witness. -/
def collHdrsW : List CollHeader191 :=
  [{ vertsOfs := 16, leafDataOfs := 48, nodesOfs := 96 }]

/-- Witness for the amended C3 theorem on a single concrete header. -/
theorem C3_collision_lengths_amended_witness :
    ((collVertLeafSizes collHdrsW).getD 0 default).1 =
      (collHdrsW.getD 0 default).leafDataOfs - (collHdrsW.getD 0 default).vertsOfs ∧
    (0 + 1 < collHdrsW.length →
      ((collVertLeafSizes collHdrsW).getD 0 default).2 =
        (collHdrsW.getD (0 + 1) default).vertsOfs - (collHdrsW.getD 0 default).leafDataOfs ∧
      (collNodeSizes collHdrsW 500 200).getD 0 default =
        (collHdrsW.getD (0 + 1) default).nodesOfs - (collHdrsW.getD 0 default).nodesOfs) ∧
    (0 = collHdrsW.length - 1 →
      ((collVertLeafSizes collHdrsW).getD 0 default).2 =
        (collHdrsW.getD 0 default).nodesOfs - (collHdrsW.getD 0 default).leafDataOfs ∧
      (collNodeSizes collHdrsW 500 200).getD 0 default =
        min ((500 - 200 - (collHdrsW.getD 0 default).nodesOfs.toNat : Nat) : Int)
          (1024 * 1024)) :=
  C3_collision_lengths_amended collHdrsW 500 200 0 (by decide)

/-! ### Bone-state table recovery (FindBoneStateData_191, rmdl_191.cpp lines
50-127, and its caller in ConvertVGData_191, lines 220-282) -/

/-- The run of `cnt` bytes starting at `off`. -/
def runAt (buf : List Nat) (off cnt : Nat) : List Nat :=
  (buf.drop off).take cnt

/-- The scan's acceptance test for a candidate run: every byte is a valid
bone index (`< totalBones`) and all bytes are pairwise distinct (the
source's `std::set` ends up with `boneStateCount` elements exactly when no
value repeats). -/
def validBoneRun (run : List Nat) (totalBones : Nat) : Bool :=
  run.all (fun v => decide (v < totalBones)) && decide run.Nodup

/-- The 16 bytes before a candidate run must look like a small header:
first byte a LOD count in `[1,8]`, bytes 4/8/12 zero and the last byte
before the data zero; only checked when at least 16 bytes precede. -/
def looksLikeBoneStateHeader (buf : List Nat) (off : Nat) : Bool :=
  decide (16 ≤ off) &&
    (decide (1 ≤ buf.getD (off - 16) 0) && decide (buf.getD (off - 16) 0 ≤ 8) &&
     decide (buf.getD (off - 16 + 4) 0 = 0) && decide (buf.getD (off - 16 + 8) 0 = 0) &&
     decide (buf.getD (off - 16 + 12) 0 = 0) && decide (buf.getD (off - 16 + 15) 0 = 0))

/-- `const size_t searchStart = 0x1000;` — the header area is skipped. -/
def boneStateSearchStart : Nat := 0x1000

/-- Backward scan from `rmdlSize - boneStateCount` down to `searchStart`,
accepting only a valid run preceded by a plausible header. -/
def findBoneStateBackward (buf : List Nat) (cnt tb : Nat) : Option Nat :=
  if buf.length - cnt < boneStateSearchStart then none
  else
    ((List.range' boneStateSearchStart (buf.length - cnt - boneStateSearchStart + 1)).reverse).find?
      (fun off => validBoneRun (runAt buf off cnt) tb && looksLikeBoneStateHeader buf off)

/-- Forward scan from `searchStart` up to (exclusive) `rmdlSize - cnt`,
without the header check. -/
def findBoneStateForward (buf : List Nat) (cnt tb : Nat) : Option Nat :=
  (List.range' boneStateSearchStart (buf.length - cnt - boneStateSearchStart)).find?
    (fun off => validBoneRun (runAt buf off cnt) tb)

/-- `FindBoneStateData_191`: degenerate inputs are rejected, then the
backward scan is tried, then the forward scan. -/
def FindBoneStateData_191 (buf : List Nat) (cnt tb : Nat) : Option Nat :=
  if cnt = 0 ∨ tb = 0 ∨ buf.length < cnt then none
  else
    match findBoneStateBackward buf cnt tb with
    | some off => some off
    | none => findBoneStateForward buf cnt tb

/-- How the caller obtained the bone-state table. -/
inductive BoneStateSource where
  | patternScan
  | headerOffset
  | identityFallback
  deriving DecidableEq, Repr

/-- The caller's recovery chain (ConvertVGData_191 lines 220-282): pattern
search first; on failure the declared header offset validated with the same
bounds/uniqueness check (out-of-range reads modelled as invalid); and as a
final fallback the identity table `[0..maxBoneIndex]` when any bone index
was observed. -/
def recoverBoneStates (buf : List Nat) (cnt tb declaredOfs maxBoneIndex : Nat) :
    Option (BoneStateSource × List Nat) :=
  let scanned := if cnt > 0 then FindBoneStateData_191 buf cnt tb else none
  match scanned with
  | some off => some (.patternScan, runAt buf off cnt)
  | none =>
      let run := runAt buf declaredOfs cnt
      if cnt > 0 ∧ run.length = cnt ∧ validBoneRun run tb then
        some (.headerOffset, run)
      else if maxBoneIndex > 0 then
        some (.identityFallback, List.range (maxBoneIndex + 1))
      else none

lemma validBoneRun_spec {run : List Nat} {tb : Nat} (h : validBoneRun run tb = true) :
    run.Nodup ∧ ∀ v ∈ run, v < tb := by
  unfold validBoneRun at h
  rw [Bool.and_eq_true] at h
  refine ⟨of_decide_eq_true h.2, ?_⟩
  intro v hv
  have := List.all_eq_true.mp h.1 v hv
  exact of_decide_eq_true this

lemma find_gives_validRun {buf : List Nat} {cnt tb off : Nat}
    (h : FindBoneStateData_191 buf cnt tb = some off) :
    validBoneRun (runAt buf off cnt) tb = true := by
  unfold FindBoneStateData_191 at h
  by_cases hdeg : cnt = 0 ∨ tb = 0 ∨ buf.length < cnt
  · rw [if_pos hdeg] at h
    cases h
  · rw [if_neg hdeg] at h
    cases hb : findBoneStateBackward buf cnt tb with
    | some o =>
        rw [hb] at h
        have ho : o = off := by injection h
        subst ho
        unfold findBoneStateBackward at hb
        by_cases hs : buf.length - cnt < boneStateSearchStart
        · rw [if_pos hs] at hb
          cases hb
        · rw [if_neg hs] at hb
          have hp := List.find?_some
            (p := fun o => validBoneRun (runAt buf o cnt) tb && looksLikeBoneStateHeader buf o) hb
          simp only [Bool.and_eq_true] at hp
          exact hp.1
    | none =>
        rw [hb] at h
        unfold findBoneStateForward at h
        have hp := List.find?_some (p := fun o => validBoneRun (runAt buf o cnt) tb) h
        simpa using hp

/-- C4: the recovery tries the backward-then-forward pattern scan first and
the declared header offset only when the scan fails; and any table it
accepts other than the identity fallback contains each value at most once,
with every value a valid bone index (`< totalBones`). -/
theorem C4_bone_state_recovery (buf : List Nat) (cnt tb declaredOfs maxBoneIndex : Nat)
    (src : BoneStateSource) (table : List Nat)
    (h : recoverBoneStates buf cnt tb declaredOfs maxBoneIndex = some (src, table))
    (hs : src ≠ .identityFallback) :
    (table.Nodup ∧ ∀ v ∈ table, v < tb) ∧
    (src = .patternScan →
      ∃ off, FindBoneStateData_191 buf cnt tb = some off ∧ table = runAt buf off cnt) ∧
    (src = .headerOffset →
      (cnt > 0 → FindBoneStateData_191 buf cnt tb = none) ∧
      table = runAt buf declaredOfs cnt) := by
  unfold recoverBoneStates at h
  by_cases hc : cnt > 0
  · cases hf : FindBoneStateData_191 buf cnt tb with
    | some off =>
        simp only [if_pos hc, hf, Option.some.injEq, Prod.mk.injEq] at h
        obtain ⟨h1, h2⟩ := h
        subst h1
        subst h2
        refine ⟨validBoneRun_spec (find_gives_validRun hf), ?_, ?_⟩
        · intro _
          exact ⟨off, rfl, rfl⟩
        · intro hcon
          exact absurd hcon (by decide)
    | none =>
        simp only [if_pos hc, hf] at h
        split_ifs at h with hrun hmax
        · simp only [Option.some.injEq, Prod.mk.injEq] at h
          obtain ⟨h1, h2⟩ := h
          subst h1
          subst h2
          refine ⟨validBoneRun_spec hrun.2.2, ?_, ?_⟩
          · intro hcon
            exact absurd hcon (by decide)
          · intro _
            exact ⟨fun _ => rfl, rfl⟩
        · simp only [Option.some.injEq, Prod.mk.injEq] at h
          exact absurd h.1.symm hs
  · simp only [if_neg hc] at h
    split_ifs at h with hrun hmax
    · exact absurd hrun.1 hc
    · simp only [Option.some.injEq, Prod.mk.injEq] at h
      exact absurd h.1.symm hs

/-- Witness for C4: on a tiny buffer both scans fail (the search region is
empty) and the declared header offset yields a validated table. -/
theorem C4_bone_state_recovery_witness :
    (([5, 3] : List Nat).Nodup ∧ ∀ v ∈ ([5, 3] : List Nat), v < 6) ∧
    (BoneStateSource.headerOffset = .patternScan →
      ∃ off, FindBoneStateData_191 [5, 3] 2 6 = some off ∧ ([5, 3] : List Nat) = runAt [5, 3] off 2) ∧
    (BoneStateSource.headerOffset = .headerOffset →
      (2 > 0 → FindBoneStateData_191 [5, 3] 2 6 = none) ∧
      ([5, 3] : List Nat) = runAt [5, 3] 0 2) :=
  C4_bone_state_recovery [5, 3] 2 6 0 0 .headerOffset [5, 3] (by decide) (by decide)

/-! ### Arena capacity handling (ConvertVGData_191 epilogue, rmdl_191.cpp
lines 585-598, and ConvertRMDL191To10, lines 2019-2145) -/

/-- `#define FILEBUFSIZE (32 * 1024 * 1024)` — the fixed main output buffer. -/
def FILEBUFSIZE : Nat := 32 * 1024 * 1024

/-- Outcome of the VG conversion epilogue. -/
structure VgFinishOutcome where
  overflowLoggedAfterWrites : Bool
  fileWritten : Bool
  deriving DecidableEq, Repr

/-- The epilogue of `ConvertVGData_191`: all section writes have already
advanced the cursor unconditionally; only now is `pWrite > pBufferEnd`
compared (and merely printed), and the output file is then written
unconditionally. -/
def vgConvFinish (bytesWritten capacity : Nat) : VgFinishOutcome :=
  { overflowLoggedAfterWrites := bytesWritten > capacity, fileWritten := true }

/-- The epilogue of `ConvertRMDL191To10`: the computed length is stamped and
the file written with no comparison against `FILEBUFSIZE` anywhere. -/
def rmdlConvFinish (length : Nat) : VgFinishOutcome :=
  { overflowLoggedAfterWrites := false, fileWritten := true }

/-- C5 (code behaviour at a failing input): when the bytes written exceed
the preallocated capacity, the VG converter detects this only after all
writes have happened and still writes the output file, and the main RMDL
converter writes the file without ever comparing the cursor to
`FILEBUFSIZE` — the overflow condition is not checked before writes and is
not fatal, contradicting the claim. -/
theorem C5_overflow_check_not_fatal :
    (vgConvFinish (FILEBUFSIZE + 1) FILEBUFSIZE).overflowLoggedAfterWrites = true ∧
    (vgConvFinish (FILEBUFSIZE + 1) FILEBUFSIZE).fileWritten = true ∧
    (∀ bytesWritten capacity, (vgConvFinish bytesWritten capacity).fileWritten = true) ∧
    (∀ length, rmdlConvFinish length =
      { overflowLoggedAfterWrites := false, fileWritten := true }) := by
  refine ⟨by decide, rfl, fun _ _ => rfl, fun _ => rfl⟩

/-! ### Procedural bone demotion (ConvertBones_191, rmdl_191.cpp lines
730-818) -/

/-- `const int STUDIO_PROC_JIGGLE = 5;` -/
def STUDIO_PROC_JIGGLE : Int := 5

/-- The procedural fields of a converted bone: procedural type, procedural
payload offset, and the jiggle payload bytes copied into the output (if
any). -/
structure BoneProcOut where
  proctype : Int
  procindex : Int
  jigglePayload : Option (List Nat)
  deriving DecidableEq, Repr

/-- Procedural handling of one bone in `ConvertBones_191`: `proctype` and
`procindex` are first copied; a jiggle bone (`proctype == 5`) later has its
`mstudiojigglebone_t` payload memcpy'd into the output and `procindex`
repointed at the copy; any other positive `proctype` is cleared to zero
together with `procindex`. -/
def convertBoneProc_191 (proctype procindex : Int) (payload : List Nat)
    (newProcOffset : Int) : BoneProcOut :=
  if proctype = STUDIO_PROC_JIGGLE then
    { proctype := proctype, procindex := newProcOffset, jigglePayload := some payload }
  else if proctype > 0 then
    { proctype := 0, procindex := 0, jigglePayload := none }
  else
    { proctype := proctype, procindex := procindex, jigglePayload := none }

/-- C7: every bone whose procedural type is non-zero and not jiggle (5) has
its procedural type and payload offset cleared to zero and carries no
procedural payload; every jiggle bone keeps type 5 and has its payload
copied verbatim into the output.  (Procedural types are the non-negative
enum values 0-7; the non-negativity hypothesis reflects that.) -/
theorem C7_procedural_bone_demotion (pt pi : Int) (payload : List Nat) (ofs : Int)
    (hnn : 0 ≤ pt) :
    (pt ≠ 0 → pt ≠ 5 →
      convertBoneProc_191 pt pi payload ofs =
        { proctype := 0, procindex := 0, jigglePayload := none }) ∧
    (pt = 5 →
      (convertBoneProc_191 pt pi payload ofs).proctype = 5 ∧
      (convertBoneProc_191 pt pi payload ofs).jigglePayload = some payload) := by
  constructor
  · intro h0 h5
    unfold convertBoneProc_191 STUDIO_PROC_JIGGLE
    rw [if_neg h5, if_pos (by omega)]
  · intro h5
    subst h5
    unfold convertBoneProc_191 STUDIO_PROC_JIGGLE
    rw [if_pos rfl]
    exact ⟨rfl, rfl⟩

/-- Witness for C7 at a non-jiggle procedural bone (type 3, AIMATBONE). -/
theorem C7_procedural_bone_demotion_witness :
    ((3 : Int) ≠ 0 → (3 : Int) ≠ 5 →
      convertBoneProc_191 3 7 [1, 2] 16 =
        { proctype := 0, procindex := 0, jigglePayload := none }) ∧
    ((3 : Int) = 5 →
      (convertBoneProc_191 3 7 [1, 2] 16).proctype = 5 ∧
      (convertBoneProc_191 3 7 [1, 2] 16).jigglePayload = some [1, 2]) :=
  C7_procedural_bone_demotion 3 7 [1, 2] 16 (by decide)

/-! ### Sentinel width promotion (rmdl_191.cpp lines 750-751 and 1252-1253) -/

/-- `newBone->collisionIndex = oldBoneData->collisionIndex == 0xFF ? -1 :
oldBoneData->collisionIndex;` — an 8-bit field promoted to `int`. -/
def convertCollisionIndex_191 (collisionIndex : Nat) : Int :=
  if collisionIndex = 0xFF then -1 else (collisionIndex : Int)

/-- `newSeq->activity = (oldSeq->activity == 65535) ? -1 :
static_cast<int>(oldSeq->activity);` — a 16-bit field promoted to `int`. -/
def convertActivity_191 (activity : Nat) : Int :=
  if activity = 65535 then -1 else (activity : Int)

/-- C8: the reserved "no value" sentinels of narrow source fields are
translated explicitly on width promotion and never left as the unsigned
maximum: a bone's 8-bit collision index of 0xFF becomes -1 (other values
are copied, and the result is never 255), and a sequence's 16-bit activity
of 65535 becomes -1 (other values are copied, and the result is never
65535). -/
theorem C8_sentinel_promotion (ci act : Nat) (hci : ci ≤ 0xFF) (hact : act ≤ 65535) :
    (ci = 0xFF → convertCollisionIndex_191 ci = -1) ∧
    (ci ≠ 0xFF → convertCollisionIndex_191 ci = (ci : Int)) ∧
    convertCollisionIndex_191 ci ≠ 0xFF ∧
    (act = 65535 → convertActivity_191 act = -1) ∧
    (act ≠ 65535 → convertActivity_191 act = (act : Int)) ∧
    convertActivity_191 act ≠ 65535 := by
  unfold convertCollisionIndex_191 convertActivity_191
  refine ⟨fun h => by rw [if_pos h], fun h => by rw [if_neg h], ?_,
    fun h => by rw [if_pos h], fun h => by rw [if_neg h], ?_⟩
  · by_cases h : ci = 0xFF
    · rw [if_pos h]; decide
    · rw [if_neg h]
      have : ci < 0xFF := by omega
      omega
  · by_cases h : act = 65535
    · rw [if_pos h]; decide
    · rw [if_neg h]
      have : act < 65535 := by omega
      omega

/-- Witness for C8 at the sentinel values themselves. -/
theorem C8_sentinel_promotion_witness :
    ((0xFF : Nat) = 0xFF → convertCollisionIndex_191 0xFF = -1) ∧
    ((0xFF : Nat) ≠ 0xFF → convertCollisionIndex_191 0xFF = ((0xFF : Nat) : Int)) ∧
    convertCollisionIndex_191 0xFF ≠ 0xFF ∧
    ((65535 : Nat) = 65535 → convertActivity_191 65535 = -1) ∧
    ((65535 : Nat) ≠ 65535 → convertActivity_191 65535 = ((65535 : Nat) : Int)) ∧
    convertActivity_191 65535 ≠ 65535 :=
  C8_sentinel_promotion 0xFF 65535 (by decide) (by decide)

/-! ### Physics header conversion (ConvertRMDL191To10, rmdl_191.cpp lines
2298-2378) -/

/-- The v10 `IVPSHeader` written by the physics transcoder. -/
structure IVPSHeader where
  size : Int
  id : Int
  solidCount : Int
  checkSum : Int
  keyValuesOffset : Int
  deriving DecidableEq, Repr

/-- Little-endian `uint16_t` read at byte offset `off`. -/
def readU16LE (buf : List Nat) (off : Nat) : Nat :=
  buf.getD off 0 + 256 * buf.getD (off + 1) 0

/-- The physics conversion: read the compact 4-byte v19 header
(`version` at 0, `keyValuesOffset` at 2), emit the fixed 20-byte v10 header
(size 20, id 1, one solid, model checksum, key-values offset shifted by the
16-byte header-size delta), then the source payload from byte 4 onward
unchanged. -/
def convertPhy_191 (phyInput : List Nat) (checksum : Int) : IVPSHeader × List Nat :=
  let v19KeyValuesOffset := readU16LE phyInput 2
  ({ size := 20, id := 1, solidCount := 1, checkSum := checksum,
     keyValuesOffset := (v19KeyValuesOffset : Int) + 16 },
   phyInput.drop 4)

/-- `size_t v10PhySize = sizeof(IVPSHeader) + (phyInputSize - 4);` -/
def phyOutputSize (phyInput : List Nat) : Nat :=
  20 + (phyInput.length - 4)

/-- The only model-header field touched by the post-write patch. -/
structure StudioHdrPhySlot where
  phySize : Int
  deriving DecidableEq, Repr

/-- In-place patch of the written model file's `phySize` field
(`rmdlUpdate.seekp(offsetof(studiohdr_t, phySize)); rmdlUpdate.write(...)`). -/
def patchPhySize (hdr : StudioHdrPhySlot) (newSize : Int) : StudioHdrPhySlot :=
  { phySize := newSize }

/-- C9: for a source physics file with the compact 4-byte header, the
emitted 20-byte target header has size 20, id 1, one solid, the model's
checksum, and a key-values offset equal to the source one plus 16; the
payload is the source bytes from offset 4 onward unchanged, so the output
size is the input size plus 16; and the patched model header's
physics-payload-size field equals that output size. -/
theorem C9_phy_conversion (input : List Nat) (cks : Int) (hdr : StudioHdrPhySlot)
    (hlen : 4 ≤ input.length) :
    (convertPhy_191 input cks).1 =
      { size := 20, id := 1, solidCount := 1, checkSum := cks,
        keyValuesOffset := (readU16LE input 2 : Int) + 16 } ∧
    (convertPhy_191 input cks).2 = input.drop 4 ∧
    phyOutputSize input = input.length + 16 ∧
    20 + ((convertPhy_191 input cks).2).length = phyOutputSize input ∧
    (patchPhySize hdr ((phyOutputSize input : Nat) : Int)).phySize =
      ((phyOutputSize input : Nat) : Int) := by
  refine ⟨rfl, rfl, ?_, ?_, rfl⟩
  · unfold phyOutputSize
    omega
  · unfold convertPhy_191 phyOutputSize
    simp

/-- Witness for C9 on a concrete 6-byte physics file. -/
theorem C9_phy_conversion_witness :
    (convertPhy_191 [1, 0, 32, 0, 9, 9] 77).1 =
      { size := 20, id := 1, solidCount := 1, checkSum := 77,
        keyValuesOffset := (readU16LE [1, 0, 32, 0, 9, 9] 2 : Int) + 16 } ∧
    (convertPhy_191 [1, 0, 32, 0, 9, 9] 77).2 = ([1, 0, 32, 0, 9, 9] : List Nat).drop 4 ∧
    phyOutputSize [1, 0, 32, 0, 9, 9] = ([1, 0, 32, 0, 9, 9] : List Nat).length + 16 ∧
    20 + ((convertPhy_191 [1, 0, 32, 0, 9, 9] 77).2).length =
      phyOutputSize [1, 0, 32, 0, 9, 9] ∧
    (patchPhySize { phySize := 0 } ((phyOutputSize [1, 0, 32, 0, 9, 9] : Nat) : Int)).phySize =
      ((phyOutputSize [1, 0, 32, 0, 9, 9] : Nat) : Int) :=
  C9_phy_conversion [1, 0, 32, 0, 9, 9] 77 { phySize := 0 } (by decide)

end Rmdlconv
